import Mathlib

/-!
Verification of the Ziegler-Natta polymerization rate engine
(`zieglerModel.ts`, function `calculateReactionRates`).

The engine is a pure function from a reactor-state snapshot to a vector of
reaction rates.  We embed it shallowly over the real numbers: every JS
`number` becomes `ℝ`, `Math.exp` becomes `Real.exp`, and the (never-throwing)
function returns through `Except` so that statements about raising errors can
be expressed.  Every definition below is transcribed from the source file.
-/

noncomputable section

namespace Ziegler

/-- The input record of `calculateReactionRates` (interface
`ZieglerModelInputs` of the source).  All concentrations, volume and
temperature are real scalars; `reactorFlag` is the small integer selector. -/
structure ZieglerModelInputs where
  hydrogen : ℝ
  ethylene : ℝ
  hexene : ℝ
  catalyst : ℝ
  cr6 : ℝ
  cocatalyst : ℝ
  volume : ℝ
  temperature : ℝ
  reactorFlag : ℤ
  activeSites_z0_1 : ℝ
  activeSites_z0_2 : ℝ
  livingPolymerEnd_z1_1 : ℝ
  livingPolymerEnd_z1_2 : ℝ
  livingPolymerEnd_z2_1 : ℝ
  livingPolymerEnd_z2_2 : ℝ
  livingPolymerMoment0_y0_1 : ℝ
  livingPolymerMoment0_y0_2 : ℝ
  livingPolymerMoment1_y1_1 : ℝ
  livingPolymerMoment1_y1_2 : ℝ
  livingPolymerMoment2_y2_1 : ℝ
  livingPolymerMoment2_y2_2 : ℝ

/-- The output record of `calculateReactionRates` (interface
`ZieglerModelOutputs` of the source). -/
structure ZieglerModelOutputs where
  polymerProductionRate : ℝ
  rateNitrogen : ℝ
  rateEthylene : ℝ
  rateEthane : ℝ
  ratePropane : ℝ
  rateButene : ℝ
  rateIsobutane : ℝ
  rateHexene : ℝ
  rateHexane : ℝ
  rateWater : ℝ
  rateCarbonMonoxide : ℝ
  rateMethane : ℝ
  rateHydrogen : ℝ
  rateEthylenesegment : ℝ
  rateHexenesegment : ℝ
  rateCatalyst : ℝ
  rateCocatalyst : ℝ
  rateCr6 : ℝ
  rateDeadPolymerMoment0_x0_1 : ℝ
  rateDeadPolymerMoment0_x0_2 : ℝ
  rateDeadPolymerMoment1_x1_1 : ℝ
  rateDeadPolymerMoment1_x1_2 : ℝ
  rateDeadPolymerMoment2_x2_1 : ℝ
  rateDeadPolymerMoment2_x2_2 : ℝ
  rateLivingPolymerMoment0_y0_1 : ℝ
  rateLivingPolymerMoment0_y0_2 : ℝ
  rateLivingPolymerMoment1_y1_1 : ℝ
  rateLivingPolymerMoment1_y1_2 : ℝ
  rateLivingPolymerMoment2_y2_1 : ℝ
  rateLivingPolymerMoment2_y2_2 : ℝ
  rateActiveSites_z0_1 : ℝ
  rateActiveSites_z0_2 : ℝ
  rateLivingPolymerEnd_z1_1 : ℝ
  rateLivingPolymerEnd_z1_2 : ℝ
  rateLivingPolymerEnd_z2_1 : ℝ
  rateLivingPolymerEnd_z2_2 : ℝ
  ratePolymerMass : ℝ

/-- Molecular weight of ethylene (g/mol), constant `MC2` of the source. -/
def MC2 : ℝ := 28

/-- Molecular weight of 1-hexene (g/mol), constant `MC6` of the source. -/
def MC6 : ℝ := 84

/-- Molecular weight of hydrogen (g/mol), constant `MH2` of the source. -/
def MH2 : ℝ := 2

/-- Activation parameters of the source. -/
def aka : ℝ := 1.90413
def bka : ℝ := 2.35352
def akaa : ℝ := 42.8061
def bkaa : ℝ := 2.07067
def akaH : ℝ := 43.4913
def bkaH : ℝ := 1.81544

/-- Initiation parameters of the source. -/
def ai1_1 : ℝ := 2.72252
def bi1_1 : ℝ := 0.00164819
def ai1_2 : ℝ := 0.0190001
def bi1_2 : ℝ := 2.76802
def ai2_1 : ℝ := 0.00158295
def bi2_1 : ℝ := 75.0948
def ai2_2 : ℝ := 2.49924
def bi2_2 : ℝ := 3.86923

/-- Propagation parameters of the source. -/
def ap11_1 : ℝ := 23.5079
def bp11_1 : ℝ := 62.7073
def ap11_2 : ℝ := 44.4108489690084
def bp11_2 : ℝ := 9.02536689954115
def ap12_1 : ℝ := 7.45487
def bp12_1 : ℝ := 570.828
def ap12_2 : ℝ := 16.6269298831462
def bp12_2 : ℝ := 0.0134505395511823
def ap21_1 : ℝ := 11.7691
def bp21_1 : ℝ := 13.1246
def ap21_2 : ℝ := 13.0385236154171
def bp21_2 : ℝ := 0.0712672329782542
def ap22_1 : ℝ := 0.0506817
def bp22_1 : ℝ := 91.5249
def ap22_2 : ℝ := 10.2482861977761
def bp22_2 : ℝ := 245.73403529402

/-- Transfer parameters of the source. -/
def at11_1 : ℝ := 1.91232
def bt11_1 : ℝ := 574.851
def at11_2 : ℝ := 2.12135
def bt11_2 : ℝ := 198.691
def at12_1 : ℝ := 2.3086
def bt12_1 : ℝ := 598.13
def at12_2 : ℝ := 1.92168
def bt12_2 : ℝ := 449.254
def at21_1 : ℝ := 1.88274
def bt21_1 : ℝ := 10.4787
def at21_2 : ℝ := 1.81545
def bt21_2 : ℝ := 50.6018
def at22_1 : ℝ := 1.85856
def bt22_1 : ℝ := 15.4026
def at22_2 : ℝ := 2.041
def bt22_2 : ℝ := 476.019
def atH1_1 : ℝ := 8.24086
def btH1_1 : ℝ := 24.0953
def atH1_2 : ℝ := 7.87596
def btH1_2 : ℝ := 2.95216
def atH2_1 : ℝ := 10.4391
def btH2_1 : ℝ := 0.00153492
def atH2_2 : ℝ := 0.806824
def btH2_2 : ℝ := 46.4001

/-- Termination parameters of the source. -/
def ate1_1 : ℝ := 2.01811
def bte1_1 : ℝ := 13.8224
def ate1_2 : ℝ := 1.99198
def bte1_2 : ℝ := 15.4759
def ate2_1 : ℝ := 1.83056
def bte2_1 : ℝ := 15.2807
def ate2_2 : ℝ := 2.11061
def bte2_2 : ℝ := 10.8984

/-- Side-reaction parameters of the source. -/
def aethane : ℝ := 0.0010069
def bethane : ℝ := 3.06806

/-- Site-split constant `teta1` of the source. -/
def teta1 : ℝ := 0.624963

/-- Site-split constant `teta2 = 1 - teta1` of the source. -/
def teta2 : ℝ := 1 - teta1

/-- The auxiliary constant selected by the reactor-type flag (the `switch`
statement of the source); an unrecognized selector yields 0. -/
def eth (reactorFlag : ℤ) : ℝ :=
  if reactorFlag = 1 then 5.34329
  else if reactorFlag = 2 then 1.13724
  else if reactorFlag = 3 then 0.318066
  else if reactorFlag = 4 then 0.456617
  else 0

/-- Mole fraction of monomer 1: `f1 = M1 / (M1 + M2 + 1e-25)`. -/
def f1 (M1 M2 : ℝ) : ℝ := M1 / (M1 + M2 + 1e-25)

/-- Mole fraction of monomer 2: `f2 = M2 / (M1 + M2 + 1e-25)`. -/
def f2 (M1 M2 : ℝ) : ℝ := M2 / (M1 + M2 + 1e-25)

/-- End-group fraction of monomer 1 on site 1:
`phi1_1 = N1_1 / (N1_1 + N2_1 + 1e-25)`. -/
def phi1_1 (n1 n2 : ℝ) : ℝ := n1 / (n1 + n2 + 1e-25)

/-- End-group fraction of monomer 1 on site 2. -/
def phi1_2 (n1 n2 : ℝ) : ℝ := n1 / (n1 + n2 + 1e-25)

/-- End-group fraction of monomer 2 on site 1: `phi2_1 = 1 - phi1_1`. -/
def phi2_1 (n1 n2 : ℝ) : ℝ := 1 - phi1_1 n1 n2

/-- End-group fraction of monomer 2 on site 2: `phi2_2 = 1 - phi1_2`. -/
def phi2_2 (n1 n2 : ℝ) : ℝ := 1 - phi1_2 n1 n2

/-- Rate constant `kethane`, transcribed from the source line
`Math.exp(aethane) * Math.exp(-Math.exp(bethane) / T)`. -/
def kethane (T : ℝ) : ℝ := Real.exp aethane * Real.exp (-Real.exp bethane / T)

/-- Rate constant `ka` of the source. -/
def ka (T : ℝ) : ℝ := Real.exp aka * Real.exp (-Real.exp bka / T)

/-- Rate constant `kaa` of the source. -/
def kaa (T : ℝ) : ℝ := Real.exp akaa * Real.exp (-Real.exp bkaa / T)

/-- Rate constant `kaH` of the source. -/
def kaH (T : ℝ) : ℝ := Real.exp akaH * Real.exp (-Real.exp bkaH / T)

/-- Initiation rate constants of the source. -/
def ki1_1 (T : ℝ) : ℝ := Real.exp ai1_1 * Real.exp (-Real.exp bi1_1 / T)
def ki1_2 (T : ℝ) : ℝ := Real.exp ai1_2 * Real.exp (-Real.exp bi1_2 / T)
def ki2_1 (T : ℝ) : ℝ := Real.exp ai2_1 * Real.exp (-Real.exp bi2_1 / T)
def ki2_2 (T : ℝ) : ℝ := Real.exp ai2_2 * Real.exp (-Real.exp bi2_2 / T)

/-- Propagation rate constants of the source. -/
def kp11_1 (T : ℝ) : ℝ := Real.exp ap11_1 * Real.exp (-Real.exp bp11_1 / T)
def kp11_2 (T : ℝ) : ℝ := Real.exp ap11_2 * Real.exp (-Real.exp bp11_2 / T)
def kp12_1 (T : ℝ) : ℝ := Real.exp ap12_1 * Real.exp (-Real.exp bp12_1 / T)
def kp12_2 (T : ℝ) : ℝ := Real.exp ap12_2 * Real.exp (-Real.exp bp12_2 / T)
def kp21_1 (T : ℝ) : ℝ := Real.exp ap21_1 * Real.exp (-Real.exp bp21_1 / T)
def kp21_2 (T : ℝ) : ℝ := Real.exp ap21_2 * Real.exp (-Real.exp bp21_2 / T)
def kp22_1 (T : ℝ) : ℝ := Real.exp ap22_1 * Real.exp (-Real.exp bp22_1 / T)
def kp22_2 (T : ℝ) : ℝ := Real.exp ap22_2 * Real.exp (-Real.exp bp22_2 / T)

/-- Transfer-to-monomer rate constants of the source. -/
def kt11_1 (T : ℝ) : ℝ := Real.exp at11_1 * Real.exp (-Real.exp bt11_1 / T)
def kt11_2 (T : ℝ) : ℝ := Real.exp at11_2 * Real.exp (-Real.exp bt11_2 / T)
def kt12_1 (T : ℝ) : ℝ := Real.exp at12_1 * Real.exp (-Real.exp bt12_1 / T)
def kt12_2 (T : ℝ) : ℝ := Real.exp at12_2 * Real.exp (-Real.exp bt12_2 / T)
def kt21_1 (T : ℝ) : ℝ := Real.exp at21_1 * Real.exp (-Real.exp bt21_1 / T)
def kt21_2 (T : ℝ) : ℝ := Real.exp at21_2 * Real.exp (-Real.exp bt21_2 / T)
def kt22_1 (T : ℝ) : ℝ := Real.exp at22_1 * Real.exp (-Real.exp bt22_1 / T)
def kt22_2 (T : ℝ) : ℝ := Real.exp at22_2 * Real.exp (-Real.exp bt22_2 / T)

/-- Transfer-to-hydrogen rate constants of the source. -/
def ktH1_1 (T : ℝ) : ℝ := Real.exp atH1_1 * Real.exp (-Real.exp btH1_1 / T)
def ktH1_2 (T : ℝ) : ℝ := Real.exp atH1_2 * Real.exp (-Real.exp btH1_2 / T)
def ktH2_1 (T : ℝ) : ℝ := Real.exp atH2_1 * Real.exp (-Real.exp btH2_1 / T)
def ktH2_2 (T : ℝ) : ℝ := Real.exp atH2_2 * Real.exp (-Real.exp btH2_2 / T)

/-- Termination rate constants of the source. -/
def kte1_1 (T : ℝ) : ℝ := Real.exp ate1_1 * Real.exp (-Real.exp bte1_1 / T)
def kte1_2 (T : ℝ) : ℝ := Real.exp ate1_2 * Real.exp (-Real.exp bte1_2 / T)
def kte2_1 (T : ℝ) : ℝ := Real.exp ate2_1 * Real.exp (-Real.exp bte2_1 / T)
def kte2_2 (T : ℝ) : ℝ := Real.exp ate2_2 * Real.exp (-Real.exp bte2_2 / T)

/-- Pseudo-kinetic initiation constant on site 1 of the source. -/
def pseudo_ki_1 (T M1 M2 : ℝ) : ℝ := ki1_1 T * f1 M1 M2 + ki2_1 T * f2 M1 M2

/-- Pseudo-kinetic initiation constant on site 2 of the source. -/
def pseudo_ki_2 (T M1 M2 : ℝ) : ℝ := ki1_2 T * f1 M1 M2 + ki2_2 T * f2 M1 M2

/-- Pseudo-kinetic propagation constant on site 1 of the source. -/
def pseudo_kp_1 (T M1 M2 n1 n2 : ℝ) : ℝ :=
  kp11_1 T * f1 M1 M2 * phi1_1 n1 n2 + kp21_1 T * f1 M1 M2 * phi2_1 n1 n2 +
    kp22_1 T * f2 M1 M2 * phi2_1 n1 n2 + kp12_1 T * phi1_1 n1 n2 * f2 M1 M2

/-- Pseudo-kinetic propagation constant on site 2 of the source. -/
def pseudo_kp_2 (T M1 M2 n1 n2 : ℝ) : ℝ :=
  kp11_2 T * f1 M1 M2 * phi1_2 n1 n2 + kp21_2 T * f1 M1 M2 * phi2_2 n1 n2 +
    kp22_2 T * f2 M1 M2 * phi2_2 n1 n2 + kp12_2 T * phi1_2 n1 n2 * f2 M1 M2

/-- Pseudo-kinetic transfer-to-monomer constant on site 1 of the source. -/
def pseudo_kt_1 (T M1 M2 n1 n2 : ℝ) : ℝ :=
  kt11_1 T * f1 M1 M2 * phi1_1 n1 n2 + kt21_1 T * f1 M1 M2 * phi2_1 n1 n2 +
    kt22_1 T * f2 M1 M2 * phi2_1 n1 n2 + kt12_1 T * phi1_1 n1 n2 * f2 M1 M2

/-- Pseudo-kinetic transfer-to-monomer constant on site 2 of the source. -/
def pseudo_kt_2 (T M1 M2 n1 n2 : ℝ) : ℝ :=
  kt11_2 T * f1 M1 M2 * phi1_2 n1 n2 + kt21_2 T * f1 M1 M2 * phi2_2 n1 n2 +
    kt22_2 T * f2 M1 M2 * phi2_2 n1 n2 + kt12_2 T * phi1_2 n1 n2 * f2 M1 M2

/-- Pseudo-kinetic transfer-to-hydrogen constant on site 1 of the source. -/
def pseudo_ktH_1 (T n1 n2 : ℝ) : ℝ := ktH1_1 T * phi1_1 n1 n2 + ktH2_1 T * phi2_1 n1 n2

/-- Pseudo-kinetic transfer-to-hydrogen constant on site 2 of the source. -/
def pseudo_ktH_2 (T n1 n2 : ℝ) : ℝ := ktH1_2 T * phi1_2 n1 n2 + ktH2_2 T * phi2_2 n1 n2

/-- Pseudo-kinetic termination constant on site 1 of the source. -/
def pseudo_kte_1 (T n1 n2 : ℝ) : ℝ := kte1_1 T * phi1_1 n1 n2 + kte2_1 T * phi2_1 n1 n2

/-- Pseudo-kinetic termination constant on site 2 of the source. -/
def pseudo_kte_2 (T n1 n2 : ℝ) : ℝ := kte1_2 T * phi1_2 n1 n2 + kte2_2 T * phi2_2 n1 n2

/-- Total monomer concentration `M1 + M2` of the source. -/
def totalMonomerConcentration (p : ZieglerModelInputs) : ℝ := p.ethylene + p.hexene

/-- Monomer-1 (ethylene) consumption rate `RM1` of the source. -/
def RM1 (p : ZieglerModelInputs) : ℝ :=
  let T := p.temperature
  let M1 := p.ethylene
  let ph11 := phi1_1 p.livingPolymerEnd_z1_1 p.livingPolymerEnd_z2_1
  let ph21 := phi2_1 p.livingPolymerEnd_z1_1 p.livingPolymerEnd_z2_1
  let ph12 := phi1_2 p.livingPolymerEnd_z1_2 p.livingPolymerEnd_z2_2
  let ph22 := phi2_2 p.livingPolymerEnd_z1_2 p.livingPolymerEnd_z2_2
  (-p.activeSites_z0_1 * M1 * ki1_1 T - p.activeSites_z0_2 * M1 * ki1_2 T
    - M1 * p.livingPolymerMoment0_y0_1 *
      (kp11_1 T * ph11 + kt11_1 T * ph11 + kp21_1 T * ph21 + kt21_1 T * ph21)
    - M1 * p.livingPolymerMoment0_y0_2 *
      (kp11_2 T * ph12 + kt11_2 T * ph12 + kp21_2 T * ph22 + kt21_2 T * ph22))

/-- Monomer-2 (1-hexene) consumption rate `RM2` of the source. -/
def RM2 (p : ZieglerModelInputs) : ℝ :=
  let T := p.temperature
  let M2 := p.hexene
  let ph11 := phi1_1 p.livingPolymerEnd_z1_1 p.livingPolymerEnd_z2_1
  let ph21 := phi2_1 p.livingPolymerEnd_z1_1 p.livingPolymerEnd_z2_1
  let ph12 := phi1_2 p.livingPolymerEnd_z1_2 p.livingPolymerEnd_z2_2
  let ph22 := phi2_2 p.livingPolymerEnd_z1_2 p.livingPolymerEnd_z2_2
  (-p.activeSites_z0_1 * M2 * ki2_1 T - p.activeSites_z0_2 * M2 * ki2_2 T
    - M2 * p.livingPolymerMoment0_y0_1 *
      (kp22_1 T * ph21 + kt22_1 T * ph21 + kp12_1 T * ph11 + kt12_1 T * ph11)
    - M2 * p.livingPolymerMoment0_y0_2 *
      (kp22_2 T * ph22 + kt22_2 T * ph22 + kp12_2 T * ph12 + kt12_2 T * ph12))

/-- Hydrogen consumption rate `RH2` of the source. -/
def RH2 (p : ZieglerModelInputs) : ℝ :=
  let T := p.temperature
  let H2 := p.hydrogen
  (-p.livingPolymerMoment0_y0_1 * H2 * (ktH1_1 T + ktH2_1 T)
    - p.livingPolymerMoment0_y0_2 * H2 * (ktH1_2 T + ktH2_2 T)
    - kaH T * H2 * p.cr6 - kethane T * H2 * eth p.reactorFlag)

/-- Inactive-catalyst rate `RS` of the source. -/
def RS (p : ZieglerModelInputs) : ℝ :=
  -ka p.temperature * p.catalyst * p.cocatalyst - kaa p.temperature * p.cocatalyst * p.catalyst

/-- Second-catalyst-species rate `RS1` of the source. -/
def RS1 (p : ZieglerModelInputs) : ℝ :=
  -kaH p.temperature * p.hydrogen * p.cr6 + kaa p.temperature * p.cocatalyst * p.catalyst

/-- Cocatalyst rate `RC` of the source. -/
def RC (p : ZieglerModelInputs) : ℝ :=
  -ka p.temperature * p.catalyst * p.cocatalyst - kaa p.temperature * p.cocatalyst * p.catalyst

/-- Active-site rate `RN0_1` of the source. -/
def RN0_1 (p : ZieglerModelInputs) : ℝ :=
  let T := p.temperature
  ((ka T * p.catalyst * p.cocatalyst + kaH T * p.hydrogen * p.cr6) * teta1
    - ki1_1 T * p.activeSites_z0_1 * p.ethylene - ki2_1 T * p.activeSites_z0_1 * p.hexene)

/-- Active-site rate `RN0_2` of the source. -/
def RN0_2 (p : ZieglerModelInputs) : ℝ :=
  let T := p.temperature
  ((ka T * p.catalyst * p.cocatalyst + kaH T * p.hydrogen * p.cr6) * teta2
    - ki1_2 T * p.activeSites_z0_2 * p.ethylene - ki2_2 T * p.activeSites_z0_2 * p.hexene)

/-- Living-moment rate `RY0_1` of the source. -/
def RY0_1 (p : ZieglerModelInputs) : ℝ :=
  let T := p.temperature
  let tm := totalMonomerConcentration p
  (p.activeSites_z0_1 * tm * pseudo_ki_1 T p.ethylene p.hexene
    - p.livingPolymerMoment0_y0_1 * pseudo_kte_1 T p.livingPolymerEnd_z1_1 p.livingPolymerEnd_z2_1
    - p.livingPolymerMoment0_y0_1 * p.hydrogen * pseudo_ktH_1 T p.livingPolymerEnd_z1_1 p.livingPolymerEnd_z2_1)

/-- Living-moment rate `RY0_2` of the source. -/
def RY0_2 (p : ZieglerModelInputs) : ℝ :=
  let T := p.temperature
  let tm := totalMonomerConcentration p
  (p.activeSites_z0_2 * tm * pseudo_ki_2 T p.ethylene p.hexene
    - p.livingPolymerMoment0_y0_2 * pseudo_kte_2 T p.livingPolymerEnd_z1_2 p.livingPolymerEnd_z2_2
    - p.livingPolymerMoment0_y0_2 * p.hydrogen * pseudo_ktH_2 T p.livingPolymerEnd_z1_2 p.livingPolymerEnd_z2_2)

/-- Living-moment rate `RY1_1` of the source. -/
def RY1_1 (p : ZieglerModelInputs) : ℝ :=
  let T := p.temperature
  let tm := totalMonomerConcentration p
  let kp := pseudo_kp_1 T p.ethylene p.hexene p.livingPolymerEnd_z1_1 p.livingPolymerEnd_z2_1
  let kt := pseudo_kt_1 T p.ethylene p.hexene p.livingPolymerEnd_z1_1 p.livingPolymerEnd_z2_1
  let ktH := pseudo_ktH_1 T p.livingPolymerEnd_z1_1 p.livingPolymerEnd_z2_1
  let kte := pseudo_kte_1 T p.livingPolymerEnd_z1_1 p.livingPolymerEnd_z2_1
  (p.activeSites_z0_1 * tm * pseudo_ki_1 T p.ethylene p.hexene
    + tm * p.livingPolymerMoment0_y0_1 * (kp + kt)
    - tm * p.livingPolymerMoment1_y1_1 * kt
    - p.livingPolymerMoment1_y1_1 * (p.hydrogen * ktH + kte))

/-- Living-moment rate `RY1_2` of the source. -/
def RY1_2 (p : ZieglerModelInputs) : ℝ :=
  let T := p.temperature
  let tm := totalMonomerConcentration p
  let kp := pseudo_kp_2 T p.ethylene p.hexene p.livingPolymerEnd_z1_2 p.livingPolymerEnd_z2_2
  let kt := pseudo_kt_2 T p.ethylene p.hexene p.livingPolymerEnd_z1_2 p.livingPolymerEnd_z2_2
  let ktH := pseudo_ktH_2 T p.livingPolymerEnd_z1_2 p.livingPolymerEnd_z2_2
  let kte := pseudo_kte_2 T p.livingPolymerEnd_z1_2 p.livingPolymerEnd_z2_2
  (p.activeSites_z0_2 * tm * pseudo_ki_2 T p.ethylene p.hexene
    + tm * p.livingPolymerMoment0_y0_2 * (kp + kt)
    - tm * p.livingPolymerMoment1_y1_2 * kt
    - p.livingPolymerMoment1_y1_2 * (p.hydrogen * ktH + kte))

/-- Living-moment rate `RY2_1` of the source. -/
def RY2_1 (p : ZieglerModelInputs) : ℝ :=
  let T := p.temperature
  let tm := totalMonomerConcentration p
  let kp := pseudo_kp_1 T p.ethylene p.hexene p.livingPolymerEnd_z1_1 p.livingPolymerEnd_z2_1
  let kt := pseudo_kt_1 T p.ethylene p.hexene p.livingPolymerEnd_z1_1 p.livingPolymerEnd_z2_1
  let ktH := pseudo_ktH_1 T p.livingPolymerEnd_z1_1 p.livingPolymerEnd_z2_1
  let kte := pseudo_kte_1 T p.livingPolymerEnd_z1_1 p.livingPolymerEnd_z2_1
  (p.activeSites_z0_1 * tm * pseudo_ki_1 T p.ethylene p.hexene
    + tm * p.livingPolymerMoment0_y0_1 * (kp + kt)
    + 2 * tm * kp * p.livingPolymerMoment1_y1_1
    - p.livingPolymerMoment2_y2_1 * (kt * tm + ktH * p.hydrogen + kte))

/-- Living-moment rate `RY2_2` of the source. -/
def RY2_2 (p : ZieglerModelInputs) : ℝ :=
  let T := p.temperature
  let tm := totalMonomerConcentration p
  let kp := pseudo_kp_2 T p.ethylene p.hexene p.livingPolymerEnd_z1_2 p.livingPolymerEnd_z2_2
  let kt := pseudo_kt_2 T p.ethylene p.hexene p.livingPolymerEnd_z1_2 p.livingPolymerEnd_z2_2
  let ktH := pseudo_ktH_2 T p.livingPolymerEnd_z1_2 p.livingPolymerEnd_z2_2
  let kte := pseudo_kte_2 T p.livingPolymerEnd_z1_2 p.livingPolymerEnd_z2_2
  (p.activeSites_z0_2 * tm * pseudo_ki_2 T p.ethylene p.hexene
    + tm * p.livingPolymerMoment0_y0_2 * (kp + kt)
    + 2 * tm * kp * p.livingPolymerMoment1_y1_2
    - p.livingPolymerMoment2_y2_2 * (kt * tm + ktH * p.hydrogen + kte))

/-- Dead-moment rate `Rx0_1` of the source. -/
def Rx0_1 (p : ZieglerModelInputs) : ℝ :=
  p.livingPolymerMoment0_y0_1 *
    (totalMonomerConcentration p * pseudo_kt_1 p.temperature p.ethylene p.hexene p.livingPolymerEnd_z1_1 p.livingPolymerEnd_z2_1
      + pseudo_ktH_1 p.temperature p.livingPolymerEnd_z1_1 p.livingPolymerEnd_z2_1 * p.hydrogen
      + pseudo_kte_1 p.temperature p.livingPolymerEnd_z1_1 p.livingPolymerEnd_z2_1)

/-- Dead-moment rate `Rx0_2` of the source. -/
def Rx0_2 (p : ZieglerModelInputs) : ℝ :=
  p.livingPolymerMoment0_y0_2 *
    (totalMonomerConcentration p * pseudo_kt_2 p.temperature p.ethylene p.hexene p.livingPolymerEnd_z1_2 p.livingPolymerEnd_z2_2
      + pseudo_ktH_2 p.temperature p.livingPolymerEnd_z1_2 p.livingPolymerEnd_z2_2 * p.hydrogen
      + pseudo_kte_2 p.temperature p.livingPolymerEnd_z1_2 p.livingPolymerEnd_z2_2)

/-- Dead-moment rate `Rx1_1` of the source. -/
def Rx1_1 (p : ZieglerModelInputs) : ℝ :=
  p.livingPolymerMoment1_y1_1 *
    (totalMonomerConcentration p * pseudo_kt_1 p.temperature p.ethylene p.hexene p.livingPolymerEnd_z1_1 p.livingPolymerEnd_z2_1
      + pseudo_ktH_1 p.temperature p.livingPolymerEnd_z1_1 p.livingPolymerEnd_z2_1 * p.hydrogen
      + pseudo_kte_1 p.temperature p.livingPolymerEnd_z1_1 p.livingPolymerEnd_z2_1)

/-- Dead-moment rate `Rx1_2` of the source. -/
def Rx1_2 (p : ZieglerModelInputs) : ℝ :=
  p.livingPolymerMoment1_y1_2 *
    (totalMonomerConcentration p * pseudo_kt_2 p.temperature p.ethylene p.hexene p.livingPolymerEnd_z1_2 p.livingPolymerEnd_z2_2
      + pseudo_ktH_2 p.temperature p.livingPolymerEnd_z1_2 p.livingPolymerEnd_z2_2 * p.hydrogen
      + pseudo_kte_2 p.temperature p.livingPolymerEnd_z1_2 p.livingPolymerEnd_z2_2)

/-- Dead-moment rate `Rx2_1` of the source. -/
def Rx2_1 (p : ZieglerModelInputs) : ℝ :=
  p.livingPolymerMoment2_y2_1 *
    (totalMonomerConcentration p * pseudo_kt_1 p.temperature p.ethylene p.hexene p.livingPolymerEnd_z1_1 p.livingPolymerEnd_z2_1
      + pseudo_ktH_1 p.temperature p.livingPolymerEnd_z1_1 p.livingPolymerEnd_z2_1 * p.hydrogen
      + pseudo_kte_1 p.temperature p.livingPolymerEnd_z1_1 p.livingPolymerEnd_z2_1)

/-- Dead-moment rate `Rx2_2` of the source. -/
def Rx2_2 (p : ZieglerModelInputs) : ℝ :=
  p.livingPolymerMoment2_y2_2 *
    (totalMonomerConcentration p * pseudo_kt_2 p.temperature p.ethylene p.hexene p.livingPolymerEnd_z1_2 p.livingPolymerEnd_z2_2
      + pseudo_ktH_2 p.temperature p.livingPolymerEnd_z1_2 p.livingPolymerEnd_z2_2 * p.hydrogen
      + pseudo_kte_2 p.temperature p.livingPolymerEnd_z1_2 p.livingPolymerEnd_z2_2)

/-- Living-end rate `RN1_1` of the source. -/
def RN1_1 (p : ZieglerModelInputs) : ℝ :=
  let T := p.temperature
  (ki1_1 T * p.ethylene * p.activeSites_z0_1
    + kp21_1 T * p.livingPolymerEnd_z2_1 * p.ethylene
    + kt21_1 T * p.livingPolymerEnd_z2_1 * p.ethylene
    - ktH1_1 T * p.hydrogen * p.livingPolymerEnd_z1_1
    - kte1_1 T * p.livingPolymerEnd_z1_1
    - kp12_1 T * p.livingPolymerEnd_z1_1 * p.hexene
    - kt12_1 T * p.livingPolymerEnd_z1_1 * p.hexene)

/-- Living-end rate `RN1_2` of the source. -/
def RN1_2 (p : ZieglerModelInputs) : ℝ :=
  let T := p.temperature
  (ki1_2 T * p.ethylene * p.activeSites_z0_2
    + kp21_2 T * p.livingPolymerEnd_z2_2 * p.ethylene
    + kt21_2 T * p.livingPolymerEnd_z2_2 * p.ethylene
    - ktH1_2 T * p.hydrogen * p.livingPolymerEnd_z1_2
    - kte1_2 T * p.livingPolymerEnd_z1_2
    - kp12_2 T * p.livingPolymerEnd_z1_2 * p.hexene
    - kt12_2 T * p.livingPolymerEnd_z1_2 * p.hexene)

/-- Living-end rate `RN2_1` of the source. -/
def RN2_1 (p : ZieglerModelInputs) : ℝ :=
  let T := p.temperature
  (ki2_1 T * p.hexene * p.activeSites_z0_1
    + kp12_1 T * p.livingPolymerEnd_z1_1 * p.hexene
    + kt12_1 T * p.livingPolymerEnd_z1_1 * p.hexene
    - kp21_1 T * p.livingPolymerEnd_z2_1 * p.ethylene
    - kt21_1 T * p.livingPolymerEnd_z2_1 * p.ethylene
    - ktH2_1 T * p.hydrogen * p.livingPolymerEnd_z2_1
    - kte2_1 T * p.livingPolymerEnd_z2_1)

/-- Living-end rate `RN2_2` of the source. -/
def RN2_2 (p : ZieglerModelInputs) : ℝ :=
  let T := p.temperature
  (ki2_2 T * p.hexene * p.activeSites_z0_2
    + kp12_2 T * p.livingPolymerEnd_z1_2 * p.hexene
    + kt12_2 T * p.livingPolymerEnd_z1_2 * p.hexene
    - kp21_2 T * p.livingPolymerEnd_z2_2 * p.ethylene
    - kt21_2 T * p.livingPolymerEnd_z2_2 * p.ethylene
    - ktH2_2 T * p.hydrogen * p.livingPolymerEnd_z2_2
    - kte2_2 T * p.livingPolymerEnd_z2_2)

/-- Polymer mass production rate in g/h of the source:
`(-RM1 * MC2 + -RM2 * MC6) * V`. -/
def polymerRateGrams (p : ZieglerModelInputs) : ℝ :=
  (-RM1 p * MC2 + -RM2 p * MC6) * p.volume

/-- The output record built by the source's final `outputs` object literal:
concentration-basis rates multiplied by the reactor volume, literal zeros for
the untracked species, and the polymer mass rate. -/
def rateVector (p : ZieglerModelInputs) : ZieglerModelOutputs where
  polymerProductionRate := polymerRateGrams p
  rateNitrogen := 0
  rateEthylene := RM1 p * p.volume
  rateEthane := 0
  ratePropane := 0
  rateButene := 0
  rateIsobutane := 0
  rateHexene := RM2 p * p.volume
  rateHexane := 0
  rateWater := 0
  rateCarbonMonoxide := 0
  rateMethane := 0
  rateHydrogen := RH2 p * p.volume
  rateEthylenesegment := 0
  rateHexenesegment := 0
  rateCatalyst := RS p * p.volume
  rateCocatalyst := RC p * p.volume
  rateCr6 := RS1 p * p.volume
  rateDeadPolymerMoment0_x0_1 := Rx0_1 p * p.volume
  rateDeadPolymerMoment0_x0_2 := Rx0_2 p * p.volume
  rateDeadPolymerMoment1_x1_1 := Rx1_1 p * p.volume
  rateDeadPolymerMoment1_x1_2 := Rx1_2 p * p.volume
  rateDeadPolymerMoment2_x2_1 := Rx2_1 p * p.volume
  rateDeadPolymerMoment2_x2_2 := Rx2_2 p * p.volume
  rateLivingPolymerMoment0_y0_1 := RY0_1 p * p.volume
  rateLivingPolymerMoment0_y0_2 := RY0_2 p * p.volume
  rateLivingPolymerMoment1_y1_1 := RY1_1 p * p.volume
  rateLivingPolymerMoment1_y1_2 := RY1_2 p * p.volume
  rateLivingPolymerMoment2_y2_1 := RY2_1 p * p.volume
  rateLivingPolymerMoment2_y2_2 := RY2_2 p * p.volume
  rateActiveSites_z0_1 := RN0_1 p * p.volume
  rateActiveSites_z0_2 := RN0_2 p * p.volume
  rateLivingPolymerEnd_z1_1 := RN1_1 p * p.volume
  rateLivingPolymerEnd_z1_2 := RN1_2 p * p.volume
  rateLivingPolymerEnd_z2_1 := RN2_1 p * p.volume
  rateLivingPolymerEnd_z2_2 := RN2_2 p * p.volume
  ratePolymerMass := polymerRateGrams p

/-- The error taxonomy of the specification.  `invalidTemperature` is the one
error the spec says the engine raises; the source never constructs it. -/
inductive ZieglerError where
  | invalidTemperature
  deriving DecidableEq

/-- The function `calculateReactionRates` of the source.  A TypeScript
function may throw, so the embedding returns through `Except`; the source body
contains no validation and no `throw` statement, so every input maps to
`Except.ok` of the assembled rate vector. -/
def calculateReactionRates (p : ZieglerModelInputs) : Except ZieglerError ZieglerModelOutputs :=
  Except.ok (rateVector p)

/-- Every scalar field of the returned output record, in declaration order;
used to express that a value does or does not occur in the returned
RateVector. -/
def outputValues (o : ZieglerModelOutputs) : List ℝ :=
  [o.polymerProductionRate, o.rateNitrogen, o.rateEthylene, o.rateEthane,
   o.ratePropane, o.rateButene, o.rateIsobutane, o.rateHexene, o.rateHexane,
   o.rateWater, o.rateCarbonMonoxide, o.rateMethane, o.rateHydrogen,
   o.rateEthylenesegment, o.rateHexenesegment, o.rateCatalyst,
   o.rateCocatalyst, o.rateCr6, o.rateDeadPolymerMoment0_x0_1,
   o.rateDeadPolymerMoment0_x0_2, o.rateDeadPolymerMoment1_x1_1,
   o.rateDeadPolymerMoment1_x1_2, o.rateDeadPolymerMoment2_x2_1,
   o.rateDeadPolymerMoment2_x2_2, o.rateLivingPolymerMoment0_y0_1,
   o.rateLivingPolymerMoment0_y0_2, o.rateLivingPolymerMoment1_y1_1,
   o.rateLivingPolymerMoment1_y1_2, o.rateLivingPolymerMoment2_y2_1,
   o.rateLivingPolymerMoment2_y2_2, o.rateActiveSites_z0_1,
   o.rateActiveSites_z0_2, o.rateLivingPolymerEnd_z1_1,
   o.rateLivingPolymerEnd_z1_2, o.rateLivingPolymerEnd_z2_1,
   o.rateLivingPolymerEnd_z2_2, o.ratePolymerMass]

/-- The double-exponential Arrhenius form as written in the specification:
`k = exp(a) * exp(-exp(b) / T)`. -/
def dexpArrheniusSpec (a b T : ℝ) : ℝ := Real.exp a * Real.exp (-Real.exp b / T)

/-- The conventional single-exponential Arrhenius law
`k = exp(a) * exp(-b / T)`, which the specification says the engine does NOT
use. -/
def singleArrheniusSpec (a b T : ℝ) : ℝ := Real.exp a * Real.exp (-b / T)

/-- Every Arrhenius parameter pair `(a, b)` used by the engine, in source
order. -/
def arrheniusPairs : List (ℝ × ℝ) :=
  [(aethane, bethane), (aka, bka), (akaa, bkaa), (akaH, bkaH),
   (ai1_1, bi1_1), (ai1_2, bi1_2), (ai2_1, bi2_1), (ai2_2, bi2_2),
   (ap11_1, bp11_1), (ap11_2, bp11_2), (ap12_1, bp12_1), (ap12_2, bp12_2),
   (ap21_1, bp21_1), (ap21_2, bp21_2), (ap22_1, bp22_1), (ap22_2, bp22_2),
   (at11_1, bt11_1), (at11_2, bt11_2), (at12_1, bt12_1), (at12_2, bt12_2),
   (at21_1, bt21_1), (at21_2, bt21_2), (at22_1, bt22_1), (at22_2, bt22_2),
   (atH1_1, btH1_1), (atH1_2, btH1_2), (atH2_1, btH2_1), (atH2_2, btH2_2),
   (ate1_1, bte1_1), (ate1_2, bte1_2), (ate2_1, bte2_1), (ate2_2, bte2_2)]

/-- Every rate constant evaluated by the engine at temperature `T`, in source
order (matching `arrheniusPairs`). -/
def kList (T : ℝ) : List ℝ :=
  [kethane T, ka T, kaa T, kaH T,
   ki1_1 T, ki1_2 T, ki2_1 T, ki2_2 T,
   kp11_1 T, kp11_2 T, kp12_1 T, kp12_2 T,
   kp21_1 T, kp21_2 T, kp22_1 T, kp22_2 T,
   kt11_1 T, kt11_2 T, kt12_1 T, kt12_2 T,
   kt21_1 T, kt21_2 T, kt22_1 T, kt22_2 T,
   ktH1_1 T, ktH1_2 T, ktH2_1 T, ktH2_2 T,
   kte1_1 T, kte1_2 T, kte2_1 T, kte2_2 T]

/-- A reactor state in which every concentration field is zero; volume,
temperature and the reactor flag are free. -/
def zeroConcState (T V : ℝ) (fl : ℤ) : ZieglerModelInputs where
  hydrogen := 0
  ethylene := 0
  hexene := 0
  catalyst := 0
  cr6 := 0
  cocatalyst := 0
  volume := V
  temperature := T
  reactorFlag := fl
  activeSites_z0_1 := 0
  activeSites_z0_2 := 0
  livingPolymerEnd_z1_1 := 0
  livingPolymerEnd_z1_2 := 0
  livingPolymerEnd_z2_1 := 0
  livingPolymerEnd_z2_2 := 0
  livingPolymerMoment0_y0_1 := 0
  livingPolymerMoment0_y0_2 := 0
  livingPolymerMoment1_y1_1 := 0
  livingPolymerMoment1_y1_2 := 0
  livingPolymerMoment2_y2_1 := 0
  livingPolymerMoment2_y2_2 := 0

/-- A reactor state in which only catalyst and cocatalyst are present
(concentration 1 each), at temperature 300 K in a 2 L reactor. -/
def catalystOnlyState : ZieglerModelInputs where
  hydrogen := 0
  ethylene := 0
  hexene := 0
  catalyst := 1
  cr6 := 0
  cocatalyst := 1
  volume := 2
  temperature := 300
  reactorFlag := 1
  activeSites_z0_1 := 0
  activeSites_z0_2 := 0
  livingPolymerEnd_z1_1 := 0
  livingPolymerEnd_z1_2 := 0
  livingPolymerEnd_z2_1 := 0
  livingPolymerEnd_z2_2 := 0
  livingPolymerMoment0_y0_1 := 0
  livingPolymerMoment0_y0_2 := 0
  livingPolymerMoment1_y1_1 := 0
  livingPolymerMoment1_y1_2 := 0
  livingPolymerMoment2_y2_1 := 0
  livingPolymerMoment2_y2_2 := 0

/-- A generic well-formed reactor state with non-negative concentrations,
positive temperature and volume 2 L. -/
def exInput : ZieglerModelInputs where
  hydrogen := 0.005
  ethylene := 0.08
  hexene := 0.02
  catalyst := 0.0001
  cr6 := 0
  cocatalyst := 0.01
  volume := 2
  temperature := 300
  reactorFlag := 1
  activeSites_z0_1 := 0.0000001
  activeSites_z0_2 := 0.0000001
  livingPolymerEnd_z1_1 := 0.0000001
  livingPolymerEnd_z1_2 := 0.0000001
  livingPolymerEnd_z2_1 := 0.0000001
  livingPolymerEnd_z2_2 := 0.0000001
  livingPolymerMoment0_y0_1 := 0.0000001
  livingPolymerMoment0_y0_2 := 0.0000001
  livingPolymerMoment1_y1_1 := 0.0000001
  livingPolymerMoment1_y1_2 := 0.0000001
  livingPolymerMoment2_y2_1 := 0.0000001
  livingPolymerMoment2_y2_2 := 0.0000001

/-- The epsilon guard of the composition stage is positive. -/
lemma eps25_pos : (0:ℝ) < 1e-25 := by norm_num

/-- Denominator of a guarded fraction is positive for non-negative inputs. -/
lemma guard_den_pos {a b : ℝ} (ha : 0 ≤ a) (hb : 0 ≤ b) : 0 < a + b + 1e-25 := by
  linarith [eps25_pos]

/-- A guarded fraction of non-negative quantities is non-negative. -/
lemma guard_frac_nonneg {a b : ℝ} (ha : 0 ≤ a) (hb : 0 ≤ b) :
    0 ≤ a / (a + b + 1e-25) :=
  div_nonneg ha (le_of_lt (guard_den_pos ha hb))

/-- A guarded fraction of non-negative quantities is at most one. -/
lemma guard_frac_le_one {a b : ℝ} (ha : 0 ≤ a) (hb : 0 ≤ b) :
    a / (a + b + 1e-25) ≤ 1 := by
  rw [div_le_one (guard_den_pos ha hb)]
  linarith [eps25_pos]

/-- The rate constants are exactly the double-exponential evaluations of the
parameter table. -/
lemma kList_eq_map (T : ℝ) :
    kList T = arrheniusPairs.map (fun q => dexpArrheniusSpec q.1 q.2 T) := rfl

/-- The double-exponential Arrhenius form is positive. -/
lemma dexpArrheniusSpec_pos (a b T : ℝ) : 0 < dexpArrheniusSpec a b T :=
  mul_pos (Real.exp_pos a) (Real.exp_pos (-Real.exp b / T))

/-- The double-exponential Arrhenius form is strictly increasing in the
temperature on the positive half-line. -/
lemma dexpArrheniusSpec_strictMono {a b T1 T2 : ℝ} (h1 : 0 < T1) (h2 : T1 < T2) :
    dexpArrheniusSpec a b T1 < dexpArrheniusSpec a b T2 := by
  have hb := Real.exp_pos b
  have hdiv : Real.exp b / T2 < Real.exp b / T1 :=
    div_lt_div_of_pos_left hb h1 h2
  have : -Real.exp b / T1 < -Real.exp b / T2 := by
    rw [neg_div, neg_div]
    linarith
  exact mul_lt_mul_of_pos_left (Real.exp_lt_exp.mpr this) (Real.exp_pos a)

/-- At any nonzero temperature the double-exponential form differs from the
conventional single-exponential Arrhenius law with the same parameters. -/
lemma dexpArrheniusSpec_ne_single {a b T : ℝ} (hT : T ≠ 0) :
    dexpArrheniusSpec a b T ≠ singleArrheniusSpec a b T := by
  unfold dexpArrheniusSpec singleArrheniusSpec
  intro h
  have hexp : Real.exp (-Real.exp b / T) = Real.exp (-b / T) :=
    mul_left_cancel₀ (ne_of_gt (Real.exp_pos a)) h
  have harg : -Real.exp b / T = -b / T := Real.exp_eq_exp.mp hexp
  have hbb : -Real.exp b = -b := by
    field_simp at harg
    rcases harg with h1 | h1
    · linarith
    · exact absurd h1 hT
  have : b < Real.exp b := by linarith [Real.add_one_le_exp b]
  linarith

/-- Pointwise strict inequality of two maps over the same list, as a
`Forall₂` relation. -/
lemma forall2_lt_map {l : List (ℝ × ℝ)} {g h : ℝ × ℝ → ℝ}
    (hgh : ∀ q, g q < h q) :
    List.Forall₂ (fun x y => x < y) (l.map g) (l.map h) := by
  induction l with
  | nil => simp
  | cons a t ih => exact List.Forall₂.cons (hgh a) ih

/-- C1 counterexample: at a concrete input with temperature −5 K the engine
does not raise `InvalidTemperature`; it returns an ok rate vector, refuting
the claim that non-positive temperatures are rejected. -/
theorem c1_counterexample :
    calculateReactionRates (zeroConcState (-5) 1 1) =
      Except.ok (rateVector (zeroConcState (-5) 1 1)) ∧
    calculateReactionRates (zeroConcState (-5) 1 1) ≠
      Except.error ZieglerError.invalidTemperature := by
  refine ⟨rfl, ?_⟩
  simp [calculateReactionRates]

/-- C1 (amended): `calculateReactionRates` performs no temperature
validation and never raises: every input, including non-positive
temperatures, maps to `Except.ok` of the assembled rate vector. -/
theorem c1_no_validation (p : ZieglerModelInputs) :
    calculateReactionRates p = Except.ok (rateVector p) := rfl

/-- C2: the pseudo-kinetic propagation and transfer-to-monomer constants on
each site are the four-term fraction-weighted sums of the claim, and the
transfer-to-hydrogen and termination pseudo-constants are the two-term
phi-weighted sums with no f-weighting. -/
theorem c2_pseudo_constant_formulas (T M1 M2 n11 n21 n12 n22 : ℝ) :
    pseudo_kp_1 T M1 M2 n11 n21 =
      kp11_1 T * f1 M1 M2 * phi1_1 n11 n21 + kp21_1 T * f1 M1 M2 * phi2_1 n11 n21 +
        kp22_1 T * f2 M1 M2 * phi2_1 n11 n21 + kp12_1 T * phi1_1 n11 n21 * f2 M1 M2 ∧
    pseudo_kp_2 T M1 M2 n12 n22 =
      kp11_2 T * f1 M1 M2 * phi1_2 n12 n22 + kp21_2 T * f1 M1 M2 * phi2_2 n12 n22 +
        kp22_2 T * f2 M1 M2 * phi2_2 n12 n22 + kp12_2 T * phi1_2 n12 n22 * f2 M1 M2 ∧
    pseudo_kt_1 T M1 M2 n11 n21 =
      kt11_1 T * f1 M1 M2 * phi1_1 n11 n21 + kt21_1 T * f1 M1 M2 * phi2_1 n11 n21 +
        kt22_1 T * f2 M1 M2 * phi2_1 n11 n21 + kt12_1 T * phi1_1 n11 n21 * f2 M1 M2 ∧
    pseudo_kt_2 T M1 M2 n12 n22 =
      kt11_2 T * f1 M1 M2 * phi1_2 n12 n22 + kt21_2 T * f1 M1 M2 * phi2_2 n12 n22 +
        kt22_2 T * f2 M1 M2 * phi2_2 n12 n22 + kt12_2 T * phi1_2 n12 n22 * f2 M1 M2 ∧
    pseudo_ktH_1 T n11 n21 = ktH1_1 T * phi1_1 n11 n21 + ktH2_1 T * phi2_1 n11 n21 ∧
    pseudo_ktH_2 T n12 n22 = ktH1_2 T * phi1_2 n12 n22 + ktH2_2 T * phi2_2 n12 n22 ∧
    pseudo_kte_1 T n11 n21 = kte1_1 T * phi1_1 n11 n21 + kte2_1 T * phi2_1 n11 n21 ∧
    pseudo_kte_2 T n12 n22 = kte1_2 T * phi1_2 n12 n22 + kte2_2 T * phi2_2 n12 n22 :=
  ⟨rfl, rfl, rfl, rfl, rfl, rfl, rfl, rfl⟩

/-- C3: at any positive temperature, every rate constant used by the engine
is the double-exponential form `exp(a) * exp(-exp(b)/T)` of its literal
parameter pair, and differs from the single-exponential Arrhenius law
`exp(a) * exp(-b/T)` on the same pair. -/
theorem c3_double_exponential_form (T : ℝ) (hT : 0 < T) :
    kList T = arrheniusPairs.map (fun q => dexpArrheniusSpec q.1 q.2 T) ∧
    ∀ q ∈ arrheniusPairs,
      dexpArrheniusSpec q.1 q.2 T ≠ singleArrheniusSpec q.1 q.2 T :=
  ⟨kList_eq_map T, fun _ _ => dexpArrheniusSpec_ne_single (ne_of_gt hT)⟩

/-- C3 witness at T = 300 K. -/
theorem c3_witness :
    (0:ℝ) < 300 ∧
    (kList 300 = arrheniusPairs.map (fun q => dexpArrheniusSpec q.1 q.2 300) ∧
      ∀ q ∈ arrheniusPairs,
        dexpArrheniusSpec q.1 q.2 300 ≠ singleArrheniusSpec q.1 q.2 300) :=
  ⟨by norm_num, c3_double_exponential_form 300 (by norm_num)⟩

/-- C9: for any temperatures 0 < T1 < T2, every rate constant of the engine
strictly increases from T1 to T2 (pointwise over the evaluated constant
list). -/
theorem c9_constants_strictly_increasing (T1 T2 : ℝ) (h1 : 0 < T1) (h2 : T1 < T2) :
    List.Forall₂ (fun x y => x < y) (kList T1) (kList T2) := by
  rw [kList_eq_map, kList_eq_map]
  exact forall2_lt_map (fun q => dexpArrheniusSpec_strictMono h1 h2)

/-- C9 witness at T1 = 1, T2 = 2. -/
theorem c9_witness :
    (0:ℝ) < 1 ∧ (1:ℝ) < 2 ∧
    List.Forall₂ (fun x y => x < y) (kList 1) (kList 2) :=
  ⟨by norm_num, by norm_num,
    c9_constants_strictly_increasing 1 2 (by norm_num) (by norm_num)⟩

/-- C10: the returned catalyst and cocatalyst rates always coincide, both
being the volume-scaled value of `-ka*S*c - kaa*c*S`. -/
theorem c10_catalyst_cocatalyst_equal (p : ZieglerModelInputs) :
    (rateVector p).rateCatalyst = (rateVector p).rateCocatalyst ∧
    (rateVector p).rateCatalyst =
      (-ka p.temperature * p.catalyst * p.cocatalyst
        - kaa p.temperature * p.cocatalyst * p.catalyst) * p.volume :=
  ⟨rfl, rfl⟩

/-- C4: for any input whose volume is nonzero (so the concentration-basis
monomer rates can be reconstructed from the output by dividing by the
volume), the returned polymer production rate equals
`(-RM1*MW1 - RM2*MW2) * Volume` exactly. -/
theorem c4_monomer_mass_balance (p : ZieglerModelInputs) (hV : p.volume ≠ 0) :
    (rateVector p).polymerProductionRate =
      (-((rateVector p).rateEthylene / p.volume) * MC2
        - (rateVector p).rateHexene / p.volume * MC6) * p.volume := by
  have h1 : RM1 p * p.volume / p.volume = RM1 p := mul_div_cancel_right₀ _ hV
  have h2 : RM2 p * p.volume / p.volume = RM2 p := mul_div_cancel_right₀ _ hV
  show polymerRateGrams p =
    (-(RM1 p * p.volume / p.volume) * MC2
      - RM2 p * p.volume / p.volume * MC6) * p.volume
  rw [h1, h2, polymerRateGrams]
  ring

/-- C4 witness at a concrete state with volume 2 L. -/
theorem c4_witness :
    exInput.volume ≠ 0 ∧
    (rateVector exInput).polymerProductionRate =
      (-((rateVector exInput).rateEthylene / exInput.volume) * MC2
        - (rateVector exInput).rateHexene / exInput.volume * MC6) * exInput.volume :=
  ⟨by norm_num [exInput], c4_monomer_mass_balance exInput (by norm_num [exInput])⟩

/-- C8: over finite non-negative concentrations and positive temperature the
engine is total: it never raises (every input maps to `Except.ok` of the
formula results, with no plausibility validation), and every guarded
denominator of the composition stage is strictly positive, as is required
for the formulas to be well defined at the all-zero state. -/
theorem c8_engine_total (p : ZieglerModelInputs)
    (hM1 : 0 ≤ p.ethylene) (hM2 : 0 ≤ p.hexene)
    (h11 : 0 ≤ p.livingPolymerEnd_z1_1) (h21 : 0 ≤ p.livingPolymerEnd_z2_1)
    (h12 : 0 ≤ p.livingPolymerEnd_z1_2) (h22 : 0 ≤ p.livingPolymerEnd_z2_2)
    (hT : 0 < p.temperature) :
    calculateReactionRates p = Except.ok (rateVector p) ∧
    0 < p.ethylene + p.hexene + 1e-25 ∧
    0 < p.livingPolymerEnd_z1_1 + p.livingPolymerEnd_z2_1 + 1e-25 ∧
    0 < p.livingPolymerEnd_z1_2 + p.livingPolymerEnd_z2_2 + 1e-25 ∧
    p.temperature ≠ 0 :=
  ⟨rfl, guard_den_pos hM1 hM2, guard_den_pos h11 h21, guard_den_pos h12 h22,
    ne_of_gt hT⟩

/-- C8 witness at a concrete non-negative state. -/
theorem c8_witness :
    (0 ≤ exInput.ethylene ∧ 0 ≤ exInput.hexene ∧
      0 ≤ exInput.livingPolymerEnd_z1_1 ∧ 0 ≤ exInput.livingPolymerEnd_z2_1 ∧
      0 ≤ exInput.livingPolymerEnd_z1_2 ∧ 0 ≤ exInput.livingPolymerEnd_z2_2 ∧
      0 < exInput.temperature) ∧
    (calculateReactionRates exInput = Except.ok (rateVector exInput) ∧
      0 < exInput.ethylene + exInput.hexene + 1e-25 ∧
      0 < exInput.livingPolymerEnd_z1_1 + exInput.livingPolymerEnd_z2_1 + 1e-25 ∧
      0 < exInput.livingPolymerEnd_z1_2 + exInput.livingPolymerEnd_z2_2 + 1e-25 ∧
      exInput.temperature ≠ 0) :=
  ⟨by norm_num [exInput],
    c8_engine_total exInput (by norm_num [exInput]) (by norm_num [exInput])
      (by norm_num [exInput]) (by norm_num [exInput]) (by norm_num [exInput])
      (by norm_num [exInput]) (by norm_num [exInput])⟩

/-- C5 counterexample: at the all-zero concentration state the composition
stage gives `phi2_1 = 1 - phi1_1 = 1`, not 0, refuting the claim that every
listed fraction evaluates to 0 there. -/
theorem c5_counterexample :
    phi2_1 (zeroConcState 300 1 1).livingPolymerEnd_z1_1
        (zeroConcState 300 1 1).livingPolymerEnd_z2_1 = 1 ∧
    phi2_1 (zeroConcState 300 1 1).livingPolymerEnd_z1_1
        (zeroConcState 300 1 1).livingPolymerEnd_z2_1 ≠ 0 := by
  constructor <;> simp [zeroConcState, phi2_1, phi1_1]

/-- C5 (amended): at the all-zero concentration state with any positive
temperature, the fractions `f1, f2, phi1_1, phi1_2` evaluate to 0 and
`phi2_1, phi2_2` to 1 (all finite), and the returned monomer, hydrogen,
catalyst, cocatalyst and second-catalyst-species rates are all exactly 0. -/
theorem c5_zero_state (T V : ℝ) (fl : ℤ) (_hT : 0 < T) :
    f1 0 0 = 0 ∧ f2 0 0 = 0 ∧ phi1_1 0 0 = 0 ∧ phi1_2 0 0 = 0 ∧
    phi2_1 0 0 = 1 ∧ phi2_2 0 0 = 1 ∧
    (rateVector (zeroConcState T V fl)).rateEthylene = 0 ∧
    (rateVector (zeroConcState T V fl)).rateHexene = 0 ∧
    (rateVector (zeroConcState T V fl)).rateHydrogen = 0 ∧
    (rateVector (zeroConcState T V fl)).rateCatalyst = 0 ∧
    (rateVector (zeroConcState T V fl)).rateCocatalyst = 0 ∧
    (rateVector (zeroConcState T V fl)).rateCr6 = 0 := by
  refine ⟨?_, ?_, ?_, ?_, ?_, ?_, ?_, ?_, ?_, ?_, ?_, ?_⟩ <;>
    simp [zeroConcState, rateVector, RM1, RM2, RH2, RS, RC, RS1,
      f1, f2, phi1_1, phi1_2, phi2_1, phi2_2]

/-- C5 witness at T = 300 K, V = 1 L, reactor flag 1. -/
theorem c5_witness :
    (0:ℝ) < 300 ∧
    (f1 0 0 = 0 ∧ f2 0 0 = 0 ∧ phi1_1 0 0 = 0 ∧ phi1_2 0 0 = 0 ∧
      phi2_1 0 0 = 1 ∧ phi2_2 0 0 = 1 ∧
      (rateVector (zeroConcState 300 1 1)).rateEthylene = 0 ∧
      (rateVector (zeroConcState 300 1 1)).rateHexene = 0 ∧
      (rateVector (zeroConcState 300 1 1)).rateHydrogen = 0 ∧
      (rateVector (zeroConcState 300 1 1)).rateCatalyst = 0 ∧
      (rateVector (zeroConcState 300 1 1)).rateCocatalyst = 0 ∧
      (rateVector (zeroConcState 300 1 1)).rateCr6 = 0) :=
  ⟨by norm_num, c5_zero_state 300 1 1 (by norm_num)⟩

/-- C6 counterexample: at M1 = M2 = 0 the mole fractions sum to 0, not to 1,
so the claimed `f1 + f2 == 1` (within floating tolerance) fails at the zero
state. -/
theorem c6_counterexample :
    f1 0 0 + f2 0 0 = 0 ∧ |f1 0 0 + f2 0 0 - 1| = 1 := by
  constructor <;> simp [f1, f2]

/-- C6 (amended): for non-negative monomer concentrations, f1 and f2 each
lie in [0,1] and their sum is at most 1, equal to 1 within tolerance 1e-9
once M1 + M2 is at least 1e-16 (the sum is 0, not 1, when both
concentrations vanish); the end-group fractions on each site sum to exactly
1 and lie in [0,1] for non-negative chain-end concentrations. -/
theorem c6_fraction_bounds (M1 M2 n1 n2 : ℝ)
    (hM1 : 0 ≤ M1) (hM2 : 0 ≤ M2) (hn1 : 0 ≤ n1) (hn2 : 0 ≤ n2) :
    (0 ≤ f1 M1 M2 ∧ f1 M1 M2 ≤ 1) ∧ (0 ≤ f2 M1 M2 ∧ f2 M1 M2 ≤ 1) ∧
    f1 M1 M2 + f2 M1 M2 ≤ 1 ∧
    (1e-16 ≤ M1 + M2 → |f1 M1 M2 + f2 M1 M2 - 1| ≤ 1e-9) ∧
    phi1_1 n1 n2 + phi2_1 n1 n2 = 1 ∧ phi1_2 n1 n2 + phi2_2 n1 n2 = 1 ∧
    (0 ≤ phi1_1 n1 n2 ∧ phi1_1 n1 n2 ≤ 1) ∧
    (0 ≤ phi2_1 n1 n2 ∧ phi2_1 n1 n2 ≤ 1) ∧
    (0 ≤ phi1_2 n1 n2 ∧ phi1_2 n1 n2 ≤ 1) ∧
    (0 ≤ phi2_2 n1 n2 ∧ phi2_2 n1 n2 ≤ 1) := by
  have hden := guard_den_pos hM1 hM2
  have hnden := guard_den_pos hn1 hn2
  have hsum : f1 M1 M2 + f2 M1 M2 = (M1 + M2) / (M1 + M2 + 1e-25) := by
    rw [f1, f2, div_add_div_same]
  have hphi1 : 0 ≤ phi1_1 n1 n2 ∧ phi1_1 n1 n2 ≤ 1 :=
    ⟨guard_frac_nonneg hn1 hn2, guard_frac_le_one hn1 hn2⟩
  refine ⟨⟨guard_frac_nonneg hM1 hM2, guard_frac_le_one hM1 hM2⟩,
    ⟨?_, ?_⟩, ?_, ?_, ?_, ?_, hphi1, ⟨?_, ?_⟩, ⟨?_, ?_⟩, ⟨?_, ?_⟩⟩
  · rw [f2]
    have := guard_frac_nonneg hM2 hM1
    rwa [show M2 + M1 + 1e-25 = M1 + M2 + 1e-25 by ring] at this
  · rw [f2]
    have := guard_frac_le_one hM2 hM1
    rwa [show M2 + M1 + 1e-25 = M1 + M2 + 1e-25 by ring] at this
  · rw [hsum, div_le_one hden]
    linarith [eps25_pos]
  · intro hlarge
    rw [hsum]
    have hpos : (0:ℝ) < M1 + M2 := by linarith
    have hgap : 1 - (M1 + M2) / (M1 + M2 + 1e-25) = 1e-25 / (M1 + M2 + 1e-25) := by
      field_simp
    have hle1 : (M1 + M2) / (M1 + M2 + 1e-25) ≤ 1 := by
      rw [div_le_one hden]; linarith [eps25_pos]
    rw [abs_sub_comm, abs_of_nonneg (by linarith)]
    rw [hgap]
    have hstep : (1e-25 : ℝ) / (M1 + M2 + 1e-25) ≤ 1e-25 / (M1 + M2) := by
      apply div_le_div_of_nonneg_left (by norm_num) hpos
      linarith [eps25_pos]
    have hstep2 : (1e-25 : ℝ) / (M1 + M2) ≤ 1e-25 / 1e-16 := by
      apply div_le_div_of_nonneg_left (by norm_num) (by norm_num)
      exact hlarge
    have : (1e-25 : ℝ) / 1e-16 ≤ 1e-9 := by norm_num
    linarith
  · rw [phi2_1]; ring
  · rw [phi2_2]; ring
  · rw [phi2_1]; linarith [hphi1.2]
  · rw [phi2_1]; linarith [hphi1.1]
  · exact guard_frac_nonneg hn1 hn2
  · exact guard_frac_le_one hn1 hn2
  · rw [phi2_2]
    have h2 : phi1_2 n1 n2 ≤ 1 := guard_frac_le_one hn1 hn2
    linarith
  · rw [phi2_2]
    have h2 : 0 ≤ phi1_2 n1 n2 := guard_frac_nonneg hn1 hn2
    linarith

/-- C6 witness at M1 = 1, M2 = 1, n1 = 0, n2 = 0. -/
theorem c6_witness :
    ((0:ℝ) ≤ 1 ∧ (0:ℝ) ≤ 1 ∧ (0:ℝ) ≤ 0 ∧ (0:ℝ) ≤ 0) ∧
    ((0 ≤ f1 1 1 ∧ f1 1 1 ≤ 1) ∧ (0 ≤ f2 1 1 ∧ f2 1 1 ≤ 1) ∧
      f1 1 1 + f2 1 1 ≤ 1 ∧
      (1e-16 ≤ (1:ℝ) + 1 → |f1 1 1 + f2 1 1 - 1| ≤ 1e-9) ∧
      phi1_1 0 0 + phi2_1 0 0 = 1 ∧ phi1_2 0 0 + phi2_2 0 0 = 1 ∧
      (0 ≤ phi1_1 0 0 ∧ phi1_1 0 0 ≤ 1) ∧
      (0 ≤ phi2_1 0 0 ∧ phi2_1 0 0 ≤ 1) ∧
      (0 ≤ phi1_2 0 0 ∧ phi1_2 0 0 ≤ 1) ∧
      (0 ≤ phi2_2 0 0 ∧ phi2_2 0 0 ≤ 1)) :=
  ⟨by norm_num,
    c6_fraction_bounds 1 1 0 0 (by norm_num) (by norm_num) le_rfl le_rfl⟩

/-- C7 counterexample: at a concrete state holding only catalyst and
cocatalyst, the as-is (mol/L/h) catalyst rate `RS` appears in none of the 37
returned fields — the output carries only volume-scaled rates — refuting the
claim that each concentration-basis rate is returned both as-is and
scaled. -/
theorem c7_counterexample :
    RS catalystOnlyState ∉ outputValues (rateVector catalystOnlyState) := by
  have ha : 0 < ka 300 := mul_pos (Real.exp_pos _) (Real.exp_pos _)
  have hb : 0 < kaa 300 := mul_pos (Real.exp_pos _) (Real.exp_pos _)
  have ht1 : 0 < teta1 := by norm_num [teta1]
  have ht2 : 0 < teta2 := by norm_num [teta2, teta1]
  have hat1 : 0 < ka 300 * teta1 := mul_pos ha ht1
  have hat2 : 0 < ka 300 * teta2 := mul_pos ha ht2
  simp only [outputValues, rateVector, catalystOnlyState, RS, RC, RS1, RM1, RM2, RH2,
    RN0_1, RN0_2, RY0_1, RY0_2, RY1_1, RY1_2, RY2_1, RY2_2,
    Rx0_1, Rx0_2, Rx1_1, Rx1_2, Rx2_1, Rx2_2,
    RN1_1, RN1_2, RN2_1, RN2_2, polymerRateGrams, totalMonomerConcentration,
    pseudo_ki_1, pseudo_ki_2, pseudo_kp_1, pseudo_kp_2, pseudo_kt_1, pseudo_kt_2,
    pseudo_ktH_1, pseudo_ktH_2, pseudo_kte_1, pseudo_kte_2,
    f1, f2, phi1_1, phi1_2, phi2_1, phi2_2,
    List.mem_cons, List.not_mem_nil]
  push_neg
  norm_num
  refine ⟨?_, ?_, ?_, ?_, ?_, ?_, ?_⟩ <;> intro h <;> linarith

/-- C7 (amended): each concentration-basis rate is returned exactly once,
scaled by the reactor volume (there is no as-is copy), and the polymer mass
production rate is volume-scaled exactly once. -/
theorem c7_scaled_only (p : ZieglerModelInputs) :
    (rateVector p).rateEthylene = RM1 p * p.volume ∧
    (rateVector p).rateHexene = RM2 p * p.volume ∧
    (rateVector p).rateHydrogen = RH2 p * p.volume ∧
    (rateVector p).rateCatalyst = RS p * p.volume ∧
    (rateVector p).rateCocatalyst = RC p * p.volume ∧
    (rateVector p).rateCr6 = RS1 p * p.volume ∧
    (rateVector p).rateDeadPolymerMoment0_x0_1 = Rx0_1 p * p.volume ∧
    (rateVector p).rateDeadPolymerMoment0_x0_2 = Rx0_2 p * p.volume ∧
    (rateVector p).rateDeadPolymerMoment1_x1_1 = Rx1_1 p * p.volume ∧
    (rateVector p).rateDeadPolymerMoment1_x1_2 = Rx1_2 p * p.volume ∧
    (rateVector p).rateDeadPolymerMoment2_x2_1 = Rx2_1 p * p.volume ∧
    (rateVector p).rateDeadPolymerMoment2_x2_2 = Rx2_2 p * p.volume ∧
    (rateVector p).rateLivingPolymerMoment0_y0_1 = RY0_1 p * p.volume ∧
    (rateVector p).rateLivingPolymerMoment0_y0_2 = RY0_2 p * p.volume ∧
    (rateVector p).rateLivingPolymerMoment1_y1_1 = RY1_1 p * p.volume ∧
    (rateVector p).rateLivingPolymerMoment1_y1_2 = RY1_2 p * p.volume ∧
    (rateVector p).rateLivingPolymerMoment2_y2_1 = RY2_1 p * p.volume ∧
    (rateVector p).rateLivingPolymerMoment2_y2_2 = RY2_2 p * p.volume ∧
    (rateVector p).rateActiveSites_z0_1 = RN0_1 p * p.volume ∧
    (rateVector p).rateActiveSites_z0_2 = RN0_2 p * p.volume ∧
    (rateVector p).rateLivingPolymerEnd_z1_1 = RN1_1 p * p.volume ∧
    (rateVector p).rateLivingPolymerEnd_z1_2 = RN1_2 p * p.volume ∧
    (rateVector p).rateLivingPolymerEnd_z2_1 = RN2_1 p * p.volume ∧
    (rateVector p).rateLivingPolymerEnd_z2_2 = RN2_2 p * p.volume ∧
    (rateVector p).polymerProductionRate = (-RM1 p * MC2 + -RM2 p * MC6) * p.volume ∧
    (rateVector p).ratePolymerMass = (rateVector p).polymerProductionRate :=
  ⟨rfl, rfl, rfl, rfl, rfl, rfl, rfl, rfl, rfl, rfl, rfl, rfl, rfl, rfl,
    rfl, rfl, rfl, rfl, rfl, rfl, rfl, rfl, rfl, rfl, rfl, rfl⟩

end Ziegler
